import Mathlib

/-!
Verification of the nova-solaris Solaris Zones compute driver.

This file gives a shallow embedding, in Lean 4, of the parts of the driver
that carry the specification's invariants:

* `ZoneConfig` (src/nova_solaris/solariszones/zone_config.py): the
  edit/commit/cancel configuration transaction and the idempotent
  `setprop` primitive.
* `_get_cpu_time` (src/nova_solaris/solariszones/driver.py): the
  generation-number retry protocol for CPU statistics.
* `destroy`, `spawn`/`_validate_flavor`, `migrate_disk_and_power_off`,
  `finish_migration`/`_cleanup_finish_migration`, `suspend`
  (src/nova_solaris/solariszones/driver.py): lifecycle orchestration,
  modelled as trace-producing functions over an explicit environment that
  supplies the results of backend calls.
* `_get_fc_hbas`, `_get_fc_wwpns`, `_suri_from_volume_info` (fibre-channel
  branch) and `_lookup_fc_volume_suri`: the fibre-channel storage-URI
  resolution path, including the `fcinfo hba-port` output parser.

Backend effects (the zonemgr RAD connection, the volume API, process
executions) are external to the repository; they are represented either by
environment records holding the results the backend would return, or by
trace events recording which backend calls were issued.
-/

namespace NovaSolaris

/-! ## Zone configuration data model

A zone configuration is an ordered list of resources; each resource is a
type name together with a property list (zonemgr model, spec section 3).
-/

/-- A zone resource: a type name and a list of (property name, value) pairs. -/
structure Resource where
  name : String
  properties : List (String × String)
deriving Repr, DecidableEq

/-- A zone configuration: the ordered list of its resources. -/
abbrev Config := List Resource

/-- Modelled from the spec: the zonemgr backend's resource/property *get*
(`zone.getResourceProperties`), used by
`utils.lookup_resource_property`: returns the value of property `prop` of
the first resource named `res`, or `none` when the resource or the
property is absent (the Python wrapper maps `ObjectError` and an empty
result list to `None`). -/
def getResourceProperty (cfg : Config) (res prop : String) : Option String :=
  match cfg.find? (fun r => r.name = res) with
  | none => none
  | some r => (r.properties.find? (fun p => p.1 = prop)).map (fun p => p.2)

/-- Set one property in a property list, replacing an existing binding or
appending a fresh one. -/
def setPropInList (props : List (String × String)) (k v : String) :
    List (String × String) :=
  if props.any (fun p => p.1 = k) then
    props.map (fun p => if p.1 = k then (k, v) else p)
  else props ++ [(k, v)]

/-- Modelled from the spec: the zonemgr backend's `addResource`, which
appends a new resource to the configuration. -/
def addResourceCfg (cfg : Config) (r : Resource) : Config :=
  cfg ++ [r]

/-- Modelled from the spec: the zonemgr backend's `setResourceProperties`,
which updates the given properties on the resource(s) named `res`. -/
def setResourcePropertiesCfg (cfg : Config) (res : String)
    (kvs : List (String × String)) : Config :=
  cfg.map (fun r =>
    if r.name = res then
      { r with properties := kvs.foldl (fun ps kv => setPropInList ps kv.1 kv.2) r.properties }
    else r)

/-! ## ZoneConfig: the configuration transaction

`ZoneConfig` (zone_config.py) is a context manager: `__enter__` calls
`editConfig` and sets `editing`; `__exit__` cancels on an in-scope
exception and commits otherwise, cancelling as a last resort if the commit
itself fails.  The backend state is the committed configuration plus an
optional pending (being-edited) configuration. -/

/-- The zonemgr-side state of one zone's configuration: the committed
configuration and, while an edit session is open, the pending one. -/
structure ZoneCfgState where
  committed : Config
  pending : Option Config
deriving Repr, DecidableEq

/-- Errors surfaced by a configuration session. -/
inductive SessErr
  | bodyErr
  | commitErr
deriving Repr, DecidableEq

/-- `zone.editConfig()`: open an edit session; the pending configuration
starts as a copy of the committed one. -/
def editConfig (s : ZoneCfgState) : ZoneCfgState :=
  { s with pending := some s.committed }

/-- `zone.cancelConfig()`: discard all pending edits. -/
def cancelConfig (s : ZoneCfgState) : ZoneCfgState :=
  { s with pending := none }

/-- `zone.commitConfig()`: persist the pending configuration. -/
def commitConfig (s : ZoneCfgState) : ZoneCfgState :=
  match s.pending with
  | some c => { committed := c, pending := none }
  | none => s

/-- The configuration a zonemgr read sees while a session is open: the
pending configuration if editing, the committed one otherwise. -/
def pendingView (s : ZoneCfgState) : Config :=
  s.pending.getD s.committed

/-- Backend mutation calls issued by `ZoneConfig.setprop`. -/
inductive BackendCall
  | addResource (res : String) (props : List (String × String))
  | setResourceProperties (res : String) (props : List (String × String))
deriving Repr, DecidableEq

/-- `ZoneConfig.setprop(resource, prop, value)` (zone_config.py lines
79-101): look the property up; if it is already equal to `value`, return
without touching the backend; otherwise `addResource` when the resource is
absent, `setResourceProperties` when it exists.  Returns the new state and
the list of backend mutation calls issued. -/
def setprop (s : ZoneCfgState) (resource prop value : String) :
    ZoneCfgState × List BackendCall :=
  match getResourceProperty (pendingView s) resource prop with
  | some current =>
    if current = value then (s, [])
    else
      ({ s with pending := some (setResourcePropertiesCfg (pendingView s) resource [(prop, value)]) },
       [BackendCall.setResourceProperties resource [(prop, value)]])
  | none =>
    ({ s with pending := some (addResourceCfg (pendingView s) ⟨resource, [(prop, value)]⟩) },
     [BackendCall.addResource resource [(prop, value)]])

/-- `ZoneConfig.__exit__` (zone_config.py lines 56-77): with an in-scope
exception and an open edit, cancel and re-raise; otherwise commit, and if
the commit fails, cancel as a last resort and raise the commit error.
`commitFails` supplies whether the backend commit call fails.  Returns the
resulting backend state and the propagated exception, if any. -/
def zoneConfigExit (s : ZoneCfgState) (editing : Bool) (exc : Option SessErr)
    (commitFails : Bool) : ZoneCfgState × Option SessErr :=
  if exc.isSome ∧ editing then (cancelConfig s, exc)
  else if commitFails then (cancelConfig s, some SessErr.commitErr)
  else (commitConfig s, exc)

/-- One full `with ZoneConfig(zone) as zc: ...` session, assuming
`editConfig` succeeds (so `editing` is set before the body runs): run the
body on the opened state, then `__exit__`.  The body returns the state it
produced and the exception it raised, if any. -/
def runZoneConfigSession (committed : Config)
    (body : ZoneCfgState → ZoneCfgState × Option SessErr)
    (commitFails : Bool) : ZoneCfgState × Option SessErr :=
  let s0 : ZoneCfgState := { committed := committed, pending := none }
  let s1 := editConfig s0
  let r := body s1
  zoneConfigExit r.1 true r.2 commitFails

/-- `setprop` never touches the committed configuration: all its edits go
to the pending configuration of the open session. -/
theorem setprop_committed (s : ZoneCfgState) (resource prop value : String) :
    ((setprop s resource prop value).1).committed = s.committed := by
  unfold setprop
  cases h : getResourceProperty (pendingView s) resource prop with
  | none => rfl
  | some current =>
    by_cases hv : current = value <;> simp [hv]

/-- Claim C1: for every `ZoneConfig` edit session in which an exception is
raised inside the edit scope (after `editConfig` succeeded), the session
is cancelled via `cancelConfig` rather than committed, so the zone's
committed configuration after the session is property-for-property
identical to the configuration before the session began, and the original
exception propagates to the caller.  The hypothesis `hbody` says the body
performs only edit-scope operations, which touch the pending configuration
only (as `setprop_committed` shows for `setprop`). -/
theorem C1_cancel_on_error (committed : Config)
    (body : ZoneCfgState → ZoneCfgState × Option SessErr)
    (commitFails : Bool) (e : SessErr)
    (hbody : ∀ s, ((body s).1).committed = s.committed)
    (hraise : (body (editConfig { committed := committed, pending := none })).2 = some e) :
    (runZoneConfigSession committed body commitFails).1.committed = committed ∧
    (runZoneConfigSession committed body commitFails).2 = some e := by
  simp only [runZoneConfigSession, zoneConfigExit]
  rw [hraise]
  rw [if_pos ⟨rfl, trivial⟩]
  exact ⟨hbody _, rfl⟩

/-- Witness for C1: a concrete session whose body performs a `setprop`
edit and then raises; the committed configuration survives untouched and
the error propagates. -/
theorem C1_cancel_on_error_witness :
    (runZoneConfigSession [⟨"capped-memory", [("physical", "1g")]⟩]
      (fun s => ((setprop s "capped-memory" "physical" "8g").1, some SessErr.bodyErr))
      false).1.committed = [⟨"capped-memory", [("physical", "1g")]⟩] ∧
    (runZoneConfigSession [⟨"capped-memory", [("physical", "1g")]⟩]
      (fun s => ((setprop s "capped-memory" "physical" "8g").1, some SessErr.bodyErr))
      false).2 = some SessErr.bodyErr :=
  C1_cancel_on_error [⟨"capped-memory", [("physical", "1g")]⟩]
    (fun s => ((setprop s "capped-memory" "physical" "8g").1, some SessErr.bodyErr))
    false SessErr.bodyErr
    (fun s => setprop_committed s "capped-memory" "physical" "8g")
    rfl

/-- Claim C2: for every call to `ZoneConfig.setprop(resource, prop, value)`
where the resource already has that property equal to the given value, no
backend mutation call (neither `addResource` nor
`setResourceProperties`) is issued; the call returns immediately as a
no-op, leaving the state unchanged. -/
theorem C2_setprop_idempotent (s : ZoneCfgState) (resource prop value : String)
    (hcur : getResourceProperty (pendingView s) resource prop = some value) :
    setprop s resource prop value = (s, []) := by
  unfold setprop
  rw [hcur]
  simp

/-- Witness for C2: a concrete state in which the property is already at
the requested value, so `setprop` issues no backend call. -/
theorem C2_setprop_idempotent_witness :
    getResourceProperty
      (pendingView { committed := [⟨"anet", [("lower-link", "net0")]⟩], pending := none })
      "anet" "lower-link" = some "net0" ∧
    setprop { committed := [⟨"anet", [("lower-link", "net0")]⟩], pending := none }
      "anet" "lower-link" "net0" =
      ({ committed := [⟨"anet", [("lower-link", "net0")]⟩], pending := none }, []) :=
  ⟨rfl, C2_setprop_idempotent _ "anet" "lower-link" "net0" rfl⟩

/-! ## `_get_cpu_time`: the generation-number retry protocol

driver.py lines 559-614.  The kstat reads go through the external kstat
RAD interface; each retry attempt is described by a `CpuTimeAttempt`
record holding the results the kstat backend returns during that attempt.
-/

/-- driver.py line 98. -/
def ZONE_STATE_RUNNING : String := "running"

/-- One read of the accumulated kstat
(`kstat:/zones/name/cpu/accum/sys`): the generation number and the
accumulated user/kernel nanoseconds of already-retired CPUs. -/
structure AccumRead where
  gen_num : Nat
  cpu_nsec_user : Nat
  cpu_nsec_kernel : Nat
deriving Repr, DecidableEq

/-- One per-CPU kstat read, summarised by the two statistics
`_get_cpu_time` sums over it (via `_sum_kstat_statistic`). -/
structure CpuShard where
  cpu_nsec_kernel_cur : Nat
  cpu_nsec_user_cur : Nat
deriving Repr, DecidableEq

/-- What the kstat backend returns during one attempt of the
`_get_cpu_time` retry loop: the initial accumulator read, the CPU
directory listing (`kstat:/zones/name/cpu`, a dict whose keys are listed
here), the per-CPU reads, the final accumulator read, and the zone state
observed by the mid-attempt `zone.state` re-checks. -/
structure CpuTimeAttempt where
  initial : Option AccumRead
  cpus : Option (List String)
  shard : String → Option CpuShard
  finalAccum : Option AccumRead
  midRunning : Bool

/-- Result of the inner `for n in cpus` loop. -/
inductive InnerResult
  | allRead (total : Nat)
  | broke
  | retZero
deriving Repr, DecidableEq

/-- The inner `for n in cpus` loop of `_get_cpu_time` (lines 590-599):
read each per-CPU kstat; on a failed read, return 0 when the zone is no
longer running, otherwise break out (leaving `cpu = None`, which makes the
outer loop continue); otherwise accumulate the kernel and user current
nanoseconds. -/
def sumShardLoop (shard : String → Option CpuShard) (midRunning : Bool) :
    List String → Nat → InnerResult
  | [], total => InnerResult.allRead total
  | n :: rest, total =>
    match shard n with
    | none => if midRunning then InnerResult.broke else InnerResult.retZero
    | some c =>
      sumShardLoop shard midRunning rest (total + c.cpu_nsec_kernel_cur + c.cpu_nsec_user_cur)

/-- Outcome of one attempt of the outer `for _attempt in range(3)` loop. -/
inductive AttemptOutcome
  | ret (n : Nat)
  | crash
  | next
  | stop
deriving Repr, DecidableEq

/-- Filter out the two aggregate entries popped at lines 586-587 (the keys
of a Python dict are unique, so filtering equals the two `pop` calls). -/
def dropAccumKeys (names : List String) : List String :=
  names.filter (fun n => n ≠ "pset_accum" && n ≠ "accum")

/-- One attempt of `_get_cpu_time`'s retry loop (lines 574-610).  A
missing `pset_accum`/`accum` key makes the Python `dict.pop` raise
(`crash`); a `None` initial accumulator read reaching the generation
comparison raises a `TypeError` (`crash`); otherwise the attempt either
returns a total, retries (`next`), or breaks out of the loop (`stop`,
which yields 0). -/
def cpuTimeAttempt (a : CpuTimeAttempt) : AttemptOutcome :=
  match a.cpus with
  | none => if a.midRunning then AttemptOutcome.next else AttemptOutcome.stop
  | some names =>
    if ¬ (names.contains "pset_accum" ∧ names.contains "accum") then AttemptOutcome.crash
    else
      if dropAccumKeys names = [] then AttemptOutcome.next
      else
        match sumShardLoop a.shard a.midRunning (dropAccumKeys names) 0 with
        | InnerResult.retZero => AttemptOutcome.ret 0
        | InnerResult.broke => AttemptOutcome.next
        | InnerResult.allRead total =>
          match a.finalAccum with
          | none => AttemptOutcome.next
          | some fin =>
            match a.initial with
            | none => AttemptOutcome.crash
            | some ini =>
              if ini.gen_num = fin.gen_num then
                AttemptOutcome.ret (total + ini.cpu_nsec_user + ini.cpu_nsec_kernel)
              else AttemptOutcome.next

/-- The `for _attempt in range(3)` loop; exhaustion (or `break`) falls
through to `return 0` (lines 612-614).  A `crash` outcome is a propagated
Python exception. -/
def cpuTimeLoop (env : Nat → CpuTimeAttempt) : Nat → Nat → Except Unit Nat
  | 0, _ => Except.ok 0
  | fuel + 1, i =>
    match cpuTimeAttempt (env i) with
    | AttemptOutcome.ret n => Except.ok n
    | AttemptOutcome.crash => Except.error ()
    | AttemptOutcome.stop => Except.ok 0
    | AttemptOutcome.next => cpuTimeLoop env fuel (i + 1)

/-- The zone fields `_get_cpu_time` reads. -/
structure ZoneInfo where
  name : Option String
  state : String
deriving Repr, DecidableEq

/-- `SolarisZonesDriver._get_cpu_time` (driver.py lines 559-614): return 0
when the zone has no name or is not running, otherwise run up to 3
attempts of the generation-checked aggregation. -/
def get_cpu_time (z : ZoneInfo) (env : Nat → CpuTimeAttempt) : Except Unit Nat :=
  if z.name = none ∨ z.state ≠ ZONE_STATE_RUNNING then Except.ok 0
  else cpuTimeLoop env 3 0

/-- The per-shard sum `_get_cpu_time` accumulates when every per-CPU read
succeeds. -/
def shardSum (shard : String → Option CpuShard) (names : List String) : Nat :=
  (names.map (fun n =>
    match shard n with
    | some c => c.cpu_nsec_kernel_cur + c.cpu_nsec_user_cur
    | none => 0)).sum

/-- When every per-CPU read succeeds, the inner loop reads them all and
accumulates exactly `shardSum`. -/
theorem sumShardLoop_allRead (shard : String → Option CpuShard) (midRunning : Bool)
    (l : List String) (t : Nat) (h : ∀ n ∈ l, (shard n).isSome) :
    sumShardLoop shard midRunning l t = InnerResult.allRead (t + shardSum shard l) := by
  induction l generalizing t with
  | nil => simp [sumShardLoop, shardSum]
  | cons n rest ih =>
    have hn : (shard n).isSome := h n (List.mem_cons_self n rest)
    cases hsh : shard n with
    | none => rw [hsh] at hn; simp at hn
    | some c =>
      have hrest : ∀ m ∈ rest, (shard m).isSome := fun m hm => h m (List.mem_cons_of_mem n hm)
      simp only [sumShardLoop, hsh]
      rw [ih _ hrest]
      have hsum : shardSum shard (n :: rest) =
          c.cpu_nsec_kernel_cur + c.cpu_nsec_user_cur + shardSum shard rest := by
        simp [shardSum, hsh]
      rw [hsum]
      congr 1
      omega

/-- An attempt in which all kstat reads succeed, at least one per-CPU
shard exists, and the accumulator's generation number changed between the
initial and final reads: such an attempt is retried. -/
def attemptGenMismatch (a : CpuTimeAttempt) : Prop :=
  ∃ names ini fin,
    a.cpus = some names ∧
    names.contains "pset_accum" ∧ names.contains "accum" ∧
    dropAccumKeys names ≠ [] ∧
    (∀ n ∈ dropAccumKeys names, (a.shard n).isSome) ∧
    a.initial = some ini ∧ a.finalAccum = some fin ∧
    ini.gen_num ≠ fin.gen_num

/-- A generation-mismatch attempt yields `next` (retry). -/
theorem cpuTimeAttempt_genMismatch (a : CpuTimeAttempt) (h : attemptGenMismatch a) :
    cpuTimeAttempt a = AttemptOutcome.next := by
  obtain ⟨names, ini, fin, hcpus, hp, ha, hne, hsh, hini, hfin, hgen⟩ := h
  rw [cpuTimeAttempt, hcpus]
  simp only [hp, ha, and_self, not_true_eq_false, if_false, if_neg hne]
  rw [sumShardLoop_allRead _ _ _ _ hsh, hfin, hini]
  simp [hgen]

/-- An attempt in which all kstat reads succeed and the generation number
is stable returns the shard sum plus the prior accumulated user and kernel
nanoseconds. -/
theorem cpuTimeAttempt_genStable (a : CpuTimeAttempt) (names : List String)
    (ini fin : AccumRead)
    (hcpus : a.cpus = some names)
    (hp : names.contains "pset_accum") (ha : names.contains "accum")
    (hne : dropAccumKeys names ≠ [])
    (hsh : ∀ n ∈ dropAccumKeys names, (a.shard n).isSome)
    (hini : a.initial = some ini) (hfin : a.finalAccum = some fin)
    (hgen : ini.gen_num = fin.gen_num) :
    cpuTimeAttempt a = AttemptOutcome.ret
      (shardSum a.shard (dropAccumKeys names) + ini.cpu_nsec_user + ini.cpu_nsec_kernel) := by
  rw [cpuTimeAttempt, hcpus]
  simp only [hp, ha, and_self, not_true_eq_false, if_false, if_neg hne]
  rw [sumShardLoop_allRead _ _ _ _ hsh, hfin, hini]
  simp [hgen]

/-- Claim C3: for every CPU-time read of a zone, (a) if the zone is not in
the running state, 0 is returned immediately; (b) if the generation number
is unchanged between the accumulator read taken before and the one taken
after summing the per-CPU shards, the returned value is the sum of the
per-CPU current statistics plus the prior accumulated user and kernel
nanoseconds; (c) if the generation number differs on every one of the 3
attempts, the call returns 0 rather than raising. -/
theorem C3_cpu_time_generation_protocol :
    (∀ (z : ZoneInfo) (env : Nat → CpuTimeAttempt),
      z.state ≠ ZONE_STATE_RUNNING → get_cpu_time z env = Except.ok 0) ∧
    (∀ (z : ZoneInfo) (env : Nat → CpuTimeAttempt) (names : List String)
      (ini fin : AccumRead),
      z.name ≠ none → z.state = ZONE_STATE_RUNNING →
      (env 0).cpus = some names →
      names.contains "pset_accum" → names.contains "accum" →
      dropAccumKeys names ≠ [] →
      (∀ n ∈ dropAccumKeys names, ((env 0).shard n).isSome) →
      (env 0).initial = some ini → (env 0).finalAccum = some fin →
      ini.gen_num = fin.gen_num →
      get_cpu_time z env = Except.ok
        (shardSum (env 0).shard (dropAccumKeys names) +
          ini.cpu_nsec_user + ini.cpu_nsec_kernel)) ∧
    (∀ (z : ZoneInfo) (env : Nat → CpuTimeAttempt),
      z.name ≠ none → z.state = ZONE_STATE_RUNNING →
      (∀ i < 3, attemptGenMismatch (env i)) →
      get_cpu_time z env = Except.ok 0) := by
  refine ⟨fun z env hst => ?_, fun z env names ini fin hnm hst hcpus hp ha hne hsh hini hfin hgen => ?_,
    fun z env hnm hst hmm => ?_⟩
  · rw [get_cpu_time, if_pos (Or.inr hst)]
  · rw [get_cpu_time, if_neg (by push_neg; exact ⟨hnm, hst⟩)]
    rw [cpuTimeLoop, cpuTimeAttempt_genStable (env 0) names ini fin hcpus hp ha hne hsh hini hfin hgen]
  · rw [get_cpu_time, if_neg (by push_neg; exact ⟨hnm, hst⟩)]
    rw [cpuTimeLoop, cpuTimeAttempt_genMismatch _ (hmm 0 (by norm_num))]
    rw [cpuTimeLoop, cpuTimeAttempt_genMismatch _ (hmm 1 (by norm_num))]
    rw [cpuTimeLoop, cpuTimeAttempt_genMismatch _ (hmm 2 (by norm_num))]
    rfl

/-- Witness for C3: concrete kstat environments exercising all three
parts: a non-running zone; a stable-generation read over one CPU shard;
and a read whose generation number changes on all 3 attempts. -/
theorem C3_cpu_time_generation_protocol_witness :
    get_cpu_time { name := some "inst1", state := "installed" }
      (fun _ => { initial := none, cpus := none, shard := fun _ => none,
                  finalAccum := none, midRunning := false }) = Except.ok 0 ∧
    get_cpu_time { name := some "inst1", state := "running" }
      (fun _ => { initial := some ⟨5, 100, 200⟩,
                  cpus := some ["accum", "pset_accum", "cpu0"],
                  shard := fun n => if n = "cpu0" then some ⟨10, 20⟩ else none,
                  finalAccum := some ⟨5, 150, 250⟩, midRunning := true }) =
      Except.ok 330 ∧
    get_cpu_time { name := some "inst1", state := "running" }
      (fun _ => { initial := some ⟨1, 100, 200⟩,
                  cpus := some ["accum", "pset_accum", "cpu0"],
                  shard := fun n => if n = "cpu0" then some ⟨10, 20⟩ else none,
                  finalAccum := some ⟨2, 150, 250⟩, midRunning := true }) =
      Except.ok 0 := by
  refine ⟨C3_cpu_time_generation_protocol.1 _ _ (by decide), ?_, ?_⟩
  · have h := C3_cpu_time_generation_protocol.2.1
      { name := some "inst1", state := "running" }
      (fun _ => { initial := some ⟨5, 100, 200⟩,
                  cpus := some ["accum", "pset_accum", "cpu0"],
                  shard := fun n => if n = "cpu0" then some ⟨10, 20⟩ else none,
                  finalAccum := some ⟨5, 150, 250⟩, midRunning := true })
      ["accum", "pset_accum", "cpu0"] ⟨5, 100, 200⟩ ⟨5, 150, 250⟩
      (by simp) rfl rfl (by decide) (by decide) (by decide)
      (fun n hn => by simp [dropAccumKeys] at hn; subst hn; rfl) rfl rfl rfl
    exact h.trans rfl
  · exact C3_cpu_time_generation_protocol.2.2
      { name := some "inst1", state := "running" }
      (fun _ => { initial := some ⟨1, 100, 200⟩,
                  cpus := some ["accum", "pset_accum", "cpu0"],
                  shard := fun n => if n = "cpu0" then some ⟨10, 20⟩ else none,
                  finalAccum := some ⟨2, 150, 250⟩, midRunning := true })
      (by simp) rfl
      (fun i _ => ⟨["accum", "pset_accum", "cpu0"], ⟨1, 100, 200⟩, ⟨2, 150, 250⟩,
        rfl, by decide, by decide, by decide,
        fun n hn => by simp [dropAccumKeys] at hn; subst hn; rfl, rfl, rfl, by decide⟩)

/-! ## `destroy`: idempotent teardown

driver.py lines 2341-2454.  The instance's task state, metadata and the
backend results (zone lookup, observed power states, per-step success)
drive a trace of emitted operations. -/

/-- A key-value metadata bag (`instance.system_metadata`). -/
abbrev Metadata := List (String × String)

/-- Dictionary lookup on a metadata bag (`dict.get`). -/
def mdLookup (md : Metadata) (k : String) : Option String :=
  (md.find? (fun p => p.1 = k)).map (fun p => p.2)

/-- The instance fields `destroy` reads. -/
structure Instance where
  name : String
  task_state : Option String
  system_metadata : Metadata
deriving Repr, DecidableEq

/-- `task_states.RESIZE_REVERTING`. -/
def TASK_RESIZE_REVERTING : String := "resize_reverting"

/-- `vm_states.RESIZED`. -/
def VM_RESIZED : String := "resized"

/-- Power states as mapped by `_get_state` from the zone state. -/
inductive PowerState
  | running
  | shutdown
  | nostate
  | other
deriving Repr, DecidableEq

/-- Operations `destroy` issues, in order. -/
inductive ZEvt
  | vncDisable
  | vncDelete
  | instanceSave
  | powerOff
  | uninstall
  | deleteConfig
  | removeConfigDrive
  | deleteInstanceDir
  | volumeDelete (volid : String)
deriving Repr, DecidableEq

/-- The backend results `destroy` observes: whether a VNC console service
exists, the `_get_zone_by_name` result, the power state read before each
of the three sequential state checks (lines 2409-2413), whether each
teardown step succeeds, and whether a config drive is required. -/
structure DestroyEnv where
  hasVncService : Bool
  zone : Option Unit
  st1 : PowerState
  st2 : PowerState
  st3 : PowerState
  powerOffOk : Bool
  uninstallOk : Bool
  deleteConfigOk : Bool
  configdriveRequired : Bool
deriving Repr, DecidableEq

/-- Sequence one conditional step of the guarded teardown block: skip if a
previous step already raised, emit the event if the condition holds, and
record whether this step raised. -/
def destroyStep (cond : Bool) (e : ZEvt) (ok : Bool) (acc : List ZEvt × Bool) :
    List ZEvt × Bool :=
  if ¬ acc.2 then acc
  else if cond then (acc.1 ++ [e], ok) else acc

/-- The `try` block of `destroy` (lines 2408-2422): power off if running,
uninstall if shut down, delete the configuration if unconfigured, remove
the config drive (its own `OSError` is swallowed), delete the instance
directory (never raises, per `utils.delete_instance_dir`).  Any exception
is caught by the enclosing `except` (lines 2424-2427), so only the trace
matters. -/
def destroyInner (env : DestroyEnv) : List ZEvt :=
  (destroyStep true ZEvt.deleteInstanceDir true
    (destroyStep env.configdriveRequired ZEvt.removeConfigDrive true
      (destroyStep (env.st3 = PowerState.nostate) ZEvt.deleteConfig env.deleteConfigOk
        (destroyStep (env.st2 = PowerState.shutdown) ZEvt.uninstall env.uninstallOk
          (destroyStep (env.st1 = PowerState.running) ZEvt.powerOff env.powerOffOk
            ([], true)))))).1

/-- The trailing volume cleanup of `destroy` (lines 2445-2454): delete the
volumes recorded under the two resize tags; failures are swallowed. -/
def destroyVolCleanup (md : Metadata) : List ZEvt :=
  (match mdLookup md "old_instance_volid" with
   | some v => [ZEvt.volumeDelete v]
   | none => []) ++
  (match mdLookup md "new_instance_volid" with
   | some v => [ZEvt.volumeDelete v]
   | none => [])

/-- The body of `destroy` after the resize-revert early return (lines
2378-2454): the evacuation guard, the best-effort VNC console cleanup, the
zone lookup (absence returns normally), the guarded teardown block, and
the trailing volume cleanup (skipped while a resize revert is in
progress). -/
def destroyMain (inst : Instance) (env : DestroyEnv) : Except Unit (List ZEvt) :=
  if (mdLookup inst.system_metadata "evac_from").isSome ∧ inst.task_state = none then
    Except.ok [ZEvt.instanceSave]
  else
    let t0 := if env.hasVncService then [ZEvt.vncDisable, ZEvt.vncDelete] else []
    match env.zone with
    | none => Except.ok t0
    | some _ =>
      let t1 := t0 ++ destroyInner env
      if inst.task_state = some TASK_RESIZE_REVERTING then Except.ok t1
      else Except.ok (t1 ++ destroyVolCleanup inst.system_metadata)

/-- `SolarisZonesDriver.destroy` (driver.py lines 2341-2454).  The leading
check (lines 2374-2376) short-circuits: when the task state is
resize-reverting, Python evaluates `system_metadata['old_vm_state']`,
which raises `KeyError` when the key is absent (`Except.error`); when that
saved state is "resized", destroy returns immediately with no operation
performed. -/
def destroy (inst : Instance) (env : DestroyEnv) : Except Unit (List ZEvt) :=
  if inst.task_state = some TASK_RESIZE_REVERTING then
    match mdLookup inst.system_metadata "old_vm_state" with
    | none => Except.error ()
    | some v =>
      if v = VM_RESIZED then Except.ok []
      else destroyMain inst env
  else destroyMain inst env

/-- Claim C4: for every destroy call on an instance whose zone cannot be
resolved by name (the zone does not exist), the call returns normally
without raising, so a second destroy of an already-destroyed instance
succeeds.  The hypothesis `hmd` is the caller invariant that an instance
in resize-revert always carries the saved `old_vm_state` (nova records it
when the resize starts); without it the leading check itself would raise a
`KeyError` before looking at the zone. -/
theorem C4_destroy_idempotent (inst : Instance) (env : DestroyEnv)
    (hmd : inst.task_state = some TASK_RESIZE_REVERTING →
      (mdLookup inst.system_metadata "old_vm_state").isSome)
    (hzone : env.zone = none) :
    ∃ tr, destroy inst env = Except.ok tr := by
  have hmain : ∃ tr, destroyMain inst env = Except.ok tr := by
    rw [destroyMain]
    by_cases hevac : (mdLookup inst.system_metadata "evac_from").isSome ∧ inst.task_state = none
    · rw [if_pos hevac]; exact ⟨_, rfl⟩
    · rw [if_neg hevac, hzone]; exact ⟨_, rfl⟩
  rw [destroy]
  by_cases hrr : inst.task_state = some TASK_RESIZE_REVERTING
  · rw [if_pos hrr]
    cases hv : mdLookup inst.system_metadata "old_vm_state" with
    | none => rw [hv] at hmd; simp at hmd; exact absurd (hmd hrr) (by simp)
    | some v =>
      by_cases hres : v = VM_RESIZED
      · exact ⟨[], by simp [hres]⟩
      · simpa [hres] using hmain
  · rw [if_neg hrr]
    exact hmain

/-- Witness for C4: a concrete instance with no zone behind it; destroy
returns normally. -/
theorem C4_destroy_idempotent_witness :
    ∃ tr, destroy
      { name := "inst1", task_state := none, system_metadata := [] }
      { hasVncService := false, zone := none, st1 := PowerState.other,
        st2 := PowerState.other, st3 := PowerState.other, powerOffOk := true,
        uninstallOk := true, deleteConfigOk := true, configdriveRequired := false } =
      Except.ok tr :=
  C4_destroy_idempotent _ _ (fun h => by simp [TASK_RESIZE_REVERTING] at h) rfl

/-- Claim C10: for every destroy call where the instance's task state is
resize-reverting and its saved old VM state is "resized", destroy returns
immediately without performing any console-service, zone, or volume
operation: the returned trace is empty. -/
theorem C10_destroy_resize_revert_noop (inst : Instance) (env : DestroyEnv)
    (hrr : inst.task_state = some TASK_RESIZE_REVERTING)
    (hmd : mdLookup inst.system_metadata "old_vm_state" = some VM_RESIZED) :
    destroy inst env = Except.ok [] := by
  rw [destroy, if_pos hrr, hmd]
  simp

/-- Witness for C10: a concrete resize-reverting instance with saved state
"resized" and a live zone behind it; destroy performs nothing. -/
theorem C10_destroy_resize_revert_noop_witness :
    destroy
      { name := "inst1", task_state := some "resize_reverting",
        system_metadata := [("old_vm_state", "resized")] }
      { hasVncService := true, zone := some (), st1 := PowerState.running,
        st2 := PowerState.shutdown, st3 := PowerState.nostate, powerOffOk := true,
        uninstallOk := true, deleteConfigOk := true, configdriveRequired := true } =
      Except.ok [] :=
  C10_destroy_resize_revert_noop _ _ rfl rfl

/-! ## `spawn` and `_validate_flavor`

driver.py lines 992-1008 (`_validate_flavor`) and 2018-2151 (`spawn`). -/

/-- driver.py line 118. -/
def ZONE_BRAND_SOLARIS : String := "solaris"

/-- driver.py line 119. -/
def ZONE_BRAND_SOLARIS_KZ : String := "solaris-kz"

/-- The flavor fields `_validate_flavor` reads. -/
structure Flavor where
  name : String
  extra_specs : Metadata
deriving Repr, DecidableEq

/-- Errors raised on the spawn path. -/
inductive SpawnErr
  | memoryAlignmentIncorrect (flavor memsize align : String)
  | imageUnacceptable (reason : String)
  | zoneBackend
deriving Repr, DecidableEq

/-- `SolarisZonesDriver._validate_flavor` (driver.py lines 992-1008): read
the brand from the flavor's extra specs (default "solaris"); for a kernel
zone, require the memory size in MB to be 256-aligned, raising
`MemoryAlignmentIncorrect` otherwise; return the brand. -/
def validate_flavor (flavor : Flavor) (memory_mb : Nat) : Except SpawnErr String :=
  let brand := (mdLookup flavor.extra_specs "zonecfg:brand").getD ZONE_BRAND_SOLARIS
  if brand = ZONE_BRAND_SOLARIS_KZ then
    if memory_mb % 256 ≠ 0 then
      Except.error (SpawnErr.memoryAlignmentIncorrect flavor.name (toString memory_mb) "256")
    else Except.ok brand
  else Except.ok brand

/-- Operations `spawn` issues, in order. -/
inductive SpEvt
  | fetchImage
  | validateImage
  | createInstanceDir
  | copyImage
  | mkScDir
  | makeConfigDrive
  | createConfig
  | installZone
  | attachZone
  | powerOn
  | waitCopyDone
  | unsetConfigDrive
  | uninstallCleanup
  | deleteConfigCleanup
  | removeScDir
deriving Repr, DecidableEq

/-- Inputs of `spawn` and backend results it observes. -/
structure SpawnArgs where
  memory_mb : Nat
  flavor : Flavor
  image_ref : Option String
  container_format : String
  copyOk : Bool
  configdriveRequired : Bool
  power_on : Bool
  createConfigOk : Bool
  installOk : Bool
  attachOk : Bool
  powerOnOk : Bool
deriving Repr, DecidableEq

/-- The `try`/`except`/`finally` tail of `spawn` (lines 2113-2151): create
the configuration, install from an image or attach, optionally power on
and finish the config drive; on any failure attempt best-effort uninstall
and config deletion and re-raise; the sc_dir is always removed. -/
def spawnTail (a : SpawnArgs) (installImage : Bool) (t : List SpEvt) :
    List SpEvt × Option SpawnErr :=
  let fail := fun (tr : List SpEvt) =>
    (tr ++ [SpEvt.uninstallCleanup, SpEvt.deleteConfigCleanup, SpEvt.removeScDir],
     some SpawnErr.zoneBackend)
  let t1 := t ++ [SpEvt.createConfig]
  if ¬ a.createConfigOk then fail t1
  else
    let t2 := t1 ++ (if installImage then [SpEvt.installZone] else [SpEvt.attachZone])
    if installImage ∧ ¬ a.installOk then fail t2
    else if ¬ installImage ∧ ¬ a.attachOk then fail t2
    else
      let t3 := t2 ++ (if a.power_on then [SpEvt.powerOn] else [])
      if a.power_on ∧ ¬ a.powerOnOk then fail t3
      else
        let t4 := t3 ++ (if a.configdriveRequired then [SpEvt.waitCopyDone, SpEvt.unsetConfigDrive] else [])
        (t4 ++ [SpEvt.removeScDir], none)

/-- `SolarisZonesDriver.spawn` (driver.py lines 2018-2151): validate the
flavor first; fetch and check the image (OVF installs, raw images are
copied for kernel zones only); create the SC profile directory and the
config drive; then run the guarded create/install/boot sequence.  Returns
the trace of issued operations and the raised error, if any. -/
def spawn (a : SpawnArgs) : List SpEvt × Option SpawnErr :=
  match validate_flavor a.flavor a.memory_mb with
  | Except.error e => ([], some e)
  | Except.ok brand =>
    let imgStep : List SpEvt × Option SpawnErr × Bool :=
      match a.image_ref with
      | none => ([], none, false)
      | some _ =>
        if a.container_format = "ovf" then
          ([SpEvt.fetchImage, SpEvt.validateImage], none, true)
        else if brand ≠ ZONE_BRAND_SOLARIS_KZ then
          ([SpEvt.fetchImage], some (SpawnErr.imageUnacceptable "raw devices need kernel zones"), false)
        else if ¬ a.copyOk then
          ([SpEvt.fetchImage, SpEvt.createInstanceDir, SpEvt.copyImage],
           some (SpawnErr.imageUnacceptable "could not copy image"), false)
        else
          ([SpEvt.fetchImage, SpEvt.createInstanceDir, SpEvt.copyImage], none, false)
    match imgStep with
    | (t, some e, _) => (t, some e)
    | (t, none, installImage) =>
      let t1 := t ++ [SpEvt.mkScDir] ++
        (if a.configdriveRequired then [SpEvt.makeConfigDrive] else [])
      spawnTail a installImage t1

/-- Claim C5: for every spawn of a kernel-zone-branded instance whose
memory size in MB is not a multiple of 256, the operation raises the
permanent memory-alignment validation error before any zone configuration
object is created: the error is `MemoryAlignmentIncorrect` and the trace
contains no `createConfig` (in fact it is empty, as the validation is the
first step of `spawn`). -/
theorem C5_spawn_validates_before_config (a : SpawnArgs)
    (hbrand : mdLookup a.flavor.extra_specs "zonecfg:brand" = some ZONE_BRAND_SOLARIS_KZ)
    (hmem : a.memory_mb % 256 ≠ 0) :
    spawn a = ([], some (SpawnErr.memoryAlignmentIncorrect a.flavor.name
      (toString a.memory_mb) "256")) ∧
    SpEvt.createConfig ∉ (spawn a).1 := by
  have hval : validate_flavor a.flavor a.memory_mb =
      Except.error (SpawnErr.memoryAlignmentIncorrect a.flavor.name
        (toString a.memory_mb) "256") := by
    rw [validate_flavor, hbrand]
    simp [Option.getD, hmem]
  constructor
  · rw [spawn, hval]
  · rw [spawn, hval]
    simp

/-- Witness for C5: a concrete kernel-zone flavor with 2000 MB of memory
(2000 % 256 ≠ 0); spawn rejects it before creating any configuration. -/
theorem C5_spawn_validates_before_config_witness :
    spawn
      { memory_mb := 2000,
        flavor := { name := "kz-large", extra_specs := [("zonecfg:brand", "solaris-kz")] },
        image_ref := some "img-1", container_format := "ovf", copyOk := true,
        configdriveRequired := false, power_on := true, createConfigOk := true,
        installOk := true, attachOk := true, powerOnOk := true } =
      ([], some (SpawnErr.memoryAlignmentIncorrect "kz-large" "2000" "256")) :=
  (C5_spawn_validates_before_config
    { memory_mb := 2000,
      flavor := { name := "kz-large", extra_specs := [("zonecfg:brand", "solaris-kz")] },
      image_ref := some "img-1", container_format := "ovf", copyOk := true,
      configdriveRequired := false, power_on := true, createConfigOk := true,
      installOk := true, attachOk := true, powerOnOk := true }
    rfl (by decide)).1

/-! ## `migrate_disk_and_power_off`

driver.py lines 3083-3193. -/

/-- Operations `migrate_disk_and_power_off` issues, in order. -/
inductive MdpEvt
  | mdSetSamehost
  | powerOff
  | volumeGet (volid : String)
  | volumeCreate
  | mdSetVolids
  | volumePoll
  | volumeExtend
  | cleanupMigrateDisk
deriving Repr, DecidableEq

/-- Errors raised by `migrate_disk_and_power_off`. -/
inductive MdpErr
  | migrationPreCheck (reason : String)
  | resize (reason : String)
  | extendFailed
deriving Repr, DecidableEq

/-- One block-device mapping entry, with the connection-info fields the
resize path reads. -/
structure BdmEntry where
  mount_device : String
  driver_volume_type : String
  data_volume_id : Option String
  serial : Option String
deriving Repr, DecidableEq

/-- `mount_device.rpartition('/')[2]`: the substring after the last slash
(the whole string when there is none). -/
def lastPathComponent (s : String) : String :=
  (s.splitOn "/").getLastD s

/-- Inputs of `migrate_disk_and_power_off` and backend results it
observes. -/
structure MdpArgs where
  samehost : Bool
  old_extra_specs : Metadata
  new_brand : Option String
  orgb : Nat
  nrgb : Nat
  bmap : List BdmEntry
  root_device_name : String
  pollRounds : Nat
  extendOk : Bool
deriving Repr, DecidableEq

/-- `SolarisZonesDriver.migrate_disk_and_power_off` (driver.py lines
3083-3193): record `resize_samehost`; reject cross-host resize of
non-kernel zones and any brand change (pre-check errors); reject a shrink
of the root volume (resize error); only then power the instance off and,
when the disk grows or the host changes, locate the root device, create
the replacement volume, poll it out of 'creating', and extend it when
growing (cleaning up and re-raising if the extend fails). -/
def migrate_disk_and_power_off (a : MdpArgs) : List MdpEvt × Option MdpErr :=
  let t0 := if a.samehost then [MdpEvt.mdSetSamehost] else []
  let brand := (mdLookup a.old_extra_specs "zonecfg:brand").getD ZONE_BRAND_SOLARIS
  if brand ≠ ZONE_BRAND_SOLARIS_KZ ∧ ¬ a.samehost then
    (t0, some (MdpErr.migrationPreCheck "resize to a different host"))
  else if some brand ≠ a.new_brand then
    (t0, some (MdpErr.migrationPreCheck "brand change during resize"))
  else if a.orgb > a.nrgb then
    (t0, some (MdpErr.resize "smaller boot volume"))
  else
    let t1 := t0 ++ [MdpEvt.powerOff]
    if a.nrgb > a.orgb ∨ ¬ a.samehost then
      match a.bmap.find? (fun e => lastPathComponent e.mount_device = a.root_device_name) with
      | none =>
        if a.samehost ∧ brand = ZONE_BRAND_SOLARIS then (t1, none)
        else (t1, some (MdpErr.resize "no attached root device"))
      | some entry =>
        let volume_id :=
          if entry.driver_volume_type = "iscsi" then
            match entry.data_volume_id with
            | some v => some v
            | none => entry.serial
          else entry.serial
        match volume_id with
        | none => (t1, some (MdpErr.resize "no attached root device"))
        | some vid =>
          let t2 := t1 ++ [MdpEvt.volumeGet vid, MdpEvt.volumeCreate, MdpEvt.mdSetVolids] ++
            List.replicate a.pollRounds MdpEvt.volumePoll
          if a.nrgb > a.orgb then
            if a.extendOk then (t2 ++ [MdpEvt.volumeExtend], none)
            else (t2 ++ [MdpEvt.volumeExtend, MdpEvt.cleanupMigrateDisk], some MdpErr.extendFailed)
          else (t2, none)
    else (t1, none)

/-- Claim C6: for every resize request where the requested root disk size
is smaller than the current one, the operation is rejected before any
backend mutation (no power-off, no volume creation, no volume extension);
when the earlier brand pre-checks pass, the rejection is specifically the
resize error. -/
theorem C6_shrink_rejected_before_mutation (a : MdpArgs) (hshrink : a.orgb > a.nrgb) :
    (migrate_disk_and_power_off a).2 ≠ none ∧
    MdpEvt.powerOff ∉ (migrate_disk_and_power_off a).1 ∧
    MdpEvt.volumeCreate ∉ (migrate_disk_and_power_off a).1 ∧
    MdpEvt.volumeExtend ∉ (migrate_disk_and_power_off a).1 ∧
    ((((mdLookup a.old_extra_specs "zonecfg:brand").getD ZONE_BRAND_SOLARIS =
          ZONE_BRAND_SOLARIS_KZ ∨ a.samehost) ∧
      some ((mdLookup a.old_extra_specs "zonecfg:brand").getD ZONE_BRAND_SOLARIS) =
        a.new_brand) →
      (migrate_disk_and_power_off a).2 = some (MdpErr.resize "smaller boot volume")) := by
  rw [migrate_disk_and_power_off]
  set brand := (mdLookup a.old_extra_specs "zonecfg:brand").getD ZONE_BRAND_SOLARIS with hbrand
  by_cases h1 : brand ≠ ZONE_BRAND_SOLARIS_KZ ∧ ¬ a.samehost
  · rw [if_pos h1]
    refine ⟨by simp, ?_, ?_, ?_, ?_⟩
    · by_cases hs : a.samehost <;> simp [hs]
    · by_cases hs : a.samehost <;> simp [hs]
    · by_cases hs : a.samehost <;> simp [hs]
    · intro hpre
      rcases h1 with ⟨hbr, hns⟩
      rcases hpre.1 with hkz | hs
      · exact absurd hkz hbr
      · exact absurd hs hns
  · rw [if_neg h1]
    by_cases h2 : some brand ≠ a.new_brand
    · rw [if_pos h2]
      refine ⟨by simp, ?_, ?_, ?_, ?_⟩
      · by_cases hs : a.samehost <;> simp [hs]
      · by_cases hs : a.samehost <;> simp [hs]
      · by_cases hs : a.samehost <;> simp [hs]
      · intro hpre
        exact absurd hpre.2 h2
    · rw [if_neg h2, if_pos hshrink]
      refine ⟨by simp, ?_, ?_, ?_, fun _ => rfl⟩
      · by_cases hs : a.samehost <;> simp [hs]
      · by_cases hs : a.samehost <;> simp [hs]
      · by_cases hs : a.samehost <;> simp [hs]

/-- Witness for C6: a concrete same-host kernel-zone resize from 20 GB
down to 10 GB; it is rejected with the resize error and no power-off,
volume creation or extension appears in the trace. -/
theorem C6_shrink_rejected_before_mutation_witness :
    10 < 20 ∧
    (migrate_disk_and_power_off
      { samehost := true, old_extra_specs := [("zonecfg:brand", "solaris-kz")],
        new_brand := some "solaris-kz", orgb := 20, nrgb := 10,
        bmap := [], root_device_name := "c1d0", pollRounds := 0,
        extendOk := true }).2 = some (MdpErr.resize "smaller boot volume") :=
  ⟨by decide,
    (C6_shrink_rejected_before_mutation
      { samehost := true, old_extra_specs := [("zonecfg:brand", "solaris-kz")],
        new_brand := some "solaris-kz", orgb := 20, nrgb := 10,
        bmap := [], root_device_name := "c1d0", pollRounds := 0,
        extendOk := true } (by decide)).2.2.2.2 (by decide)⟩

/-! ## Fibre-channel storage-URI resolution

driver.py lines 319-364 (`_get_fc_hbas`), 366-386 (`_get_fc_wwnns` /
`_get_fc_wwpns`), 1069-1090 (the fibre-channel branch of
`_suri_from_volume_info`) and 1092-1117 (`_lookup_fc_volume_suri`). -/

/-- One parsed HBA port record; `_get_fc_hbas` builds it up field by field,
appending it to the result once all three fields are present. -/
structure Hba where
  port_name : Option String
  port_state : Option String
  node_name : Option String
deriving Repr, DecidableEq

/-- `len(hba)` on the Python dict being built. -/
def hbaLen (h : Hba) : Nat :=
  (if h.port_name.isSome then 1 else 0) +
  (if h.port_state.isSome then 1 else 0) +
  (if h.node_name.isSome then 1 else 0)

/-- The whitespace characters Python `str.strip`/`str.split` treat as
separators (the ones occurring in command output). -/
def isSpaceChar (c : Char) : Bool :=
  c = ' ' || c = '\t' || c = '\n' || c = '\r'

/-- Split a character list at every separator character (structural
recursion, so proofs can evaluate it). -/
def splitCharsBy (p : Char → Bool) : List Char → List (List Char)
  | [] => [[]]
  | c :: rest =>
    let r := splitCharsBy p rest
    if p c then [] :: r
    else
      match r with
      | [] => [[c]]
      | h :: t => (c :: h) :: t

/-- Python `str.strip()`. -/
def trimStr (s : String) : String :=
  ⟨((s.data.dropWhile isSpaceChar).reverse.dropWhile isSpaceChar).reverse⟩

/-- Python `str.startswith(pre)`. -/
def startsWithStr (s pre : String) : Bool :=
  pre.data.isPrefixOf s.data

/-- Python `str.splitlines()` for newline-separated text: split on the
newline character, without a trailing empty line when the text ends in a
newline. -/
def splitLines (s : String) : List String :=
  if s.data = [] then []
  else
    let parts := splitCharsBy (fun c => c = '\n') s.data
    let parts := if s.data.getLast? = some '\n' then parts.dropLast else parts
    parts.map (fun l => ⟨l⟩)

/-- `line.split()[-1]`: the last whitespace-separated token. -/
def lastToken (s : String) : String :=
  match ((splitCharsBy isSpaceChar s.data).filter (fun t => t ≠ [])).getLast? with
  | some t => ⟨t⟩
  | none => s

/-- The parsing loop of `_get_fc_hbas` (driver.py lines 335-362): walk the
stripped output lines of `fcinfo hba-port`, collecting Port WWN, State and
Node WWN; a non-Initiator "Port Mode" stops parsing; a completed record
(all 3 fields) is flushed when a non-collecting line is reached.  A record
still being built when the lines run out is dropped, as in the source. -/
def parseHbaLines : List String → Hba → List Hba → List Hba
  | [], _, acc => acc
  | l :: rest, hba, acc =>
    let line := trimStr l
    if startsWithStr line "HBA Port WWN:" then
      parseHbaLines rest { port_name := some (lastToken line), port_state := none, node_name := none } acc
    else if startsWithStr line "Port Mode:" then
      if lastToken line ≠ "Initiator" then acc
      else if hbaLen hba = 3 then parseHbaLines rest ⟨none, none, none⟩ (acc ++ [hba])
      else parseHbaLines rest hba acc
    else if startsWithStr line "State:" then
      parseHbaLines rest { hba with port_state := some (lastToken line) } acc
    else if startsWithStr line "Node WWN:" then
      parseHbaLines rest { hba with node_name := some (lastToken line) } acc
    else if hbaLen hba = 3 then
      parseHbaLines rest ⟨none, none, none⟩ (acc ++ [hba])
    else
      parseHbaLines rest hba acc

/-- `SolarisZonesDriver._get_fc_hbas` (driver.py lines 319-364): return
the cached list when it is non-empty (Python truthiness of
`self._fc_hbas`); otherwise run `fcinfo hba-port` (a
`ProcessExecutionError` yields `[]`) and parse its output. -/
def get_fc_hbas (cache : Option (List Hba)) (fcinfoOut : Except Unit String) : List Hba :=
  match cache with
  | some hbas =>
    if hbas ≠ [] then hbas
    else
      match fcinfoOut with
      | Except.error _ => []
      | Except.ok out => parseHbaLines (splitLines out) ⟨none, none, none⟩ []
  | none =>
    match fcinfoOut with
    | Except.error _ => []
    | Except.ok out => parseHbaLines (splitLines out) ⟨none, none, none⟩ []

/-- `SolarisZonesDriver._get_fc_wwpns` (driver.py lines 377-386): the port
WWNs of the online HBA ports. -/
def get_fc_wwpns (hbas : List Hba) : List String :=
  (hbas.filter (fun h => h.port_state = some "online")).filterMap (fun h => h.port_name)

/-- Operations the fibre-channel resolution path issues. -/
inductive FcEvt
  | rescan (wwpn : String)
  | lookupAttempt (wwn : String)
  | sleep
deriving Repr, DecidableEq

/-- Errors raised by the fibre-channel resolution path. -/
inductive FcErr
  | noInitiator
  | lookupExhausted
deriving Repr, DecidableEq

/-- Scan `suriadm lookup-uri` output for a line starting with
`lu:luname.naa.` (driver.py lines 1106-1108). -/
def findSuriLine (out : String) : Option String :=
  ((splitLines out).map trimStr).find? (fun l => startsWithStr l "lu:luname.naa.")

/-- One round of `_lookup_fc_volume_suri`'s `for wwn in wwns` loop:
`lookupOut round wwn` is the result of the `suriadm lookup-uri` execution
(`Except.error` for a `ProcessExecutionError`, which is logged and
skipped). -/
def lookupRound (lookupOut : Nat → String → Except Unit String) (round : Nat) :
    List String → List FcEvt × Option String
  | [] => ([], none)
  | w :: rest =>
    match lookupOut round w with
    | Except.error _ =>
      let r := lookupRound lookupOut round rest
      (FcEvt.lookupAttempt w :: r.1, r.2)
    | Except.ok out =>
      match findSuriLine out with
      | some line => ([FcEvt.lookupAttempt w], some line)
      | none =>
        let r := lookupRound lookupOut round rest
        (FcEvt.lookupAttempt w :: r.1, r.2)

/-- The `for _none in range(3)` retry loop of `_lookup_fc_volume_suri`
(driver.py lines 1100-1113), with the fixed 2-second sleep after each
unsuccessful round. -/
def lookupLoop (lookupOut : Nat → String → Except Unit String) (wwns : List String) :
    Nat → Nat → List FcEvt × Option String
  | 0, _ => ([], none)
  | fuel + 1, round =>
    let r := lookupRound lookupOut round wwns
    match r.2 with
    | some line => (r.1, some line)
    | none =>
      let rest := lookupLoop lookupOut wwns fuel (round + 1)
      (r.1 ++ [FcEvt.sleep] ++ rest.1, rest.2)

/-- `target_wwn` may be a single WWN or a list (driver.py lines
1094-1098). -/
inductive WwnSpec
  | one (w : String)
  | many (ws : List String)
deriving Repr, DecidableEq

/-- The `isinstance(target_wwn, list)` normalization. -/
def normalizeWwns : WwnSpec → List String
  | WwnSpec.one w => [w]
  | WwnSpec.many ws => ws

/-- `SolarisZonesDriver._lookup_fc_volume_suri` (driver.py lines
1092-1117): up to 3 lookup rounds over the target WWNs; exhaustion raises
the typed "unable to lookup URI" invalid-volume error. -/
def lookup_fc_volume_suri (lookupOut : Nat → String → Except Unit String)
    (target_wwn : WwnSpec) : List FcEvt × Except FcErr String :=
  let r := lookupLoop lookupOut (normalizeWwns target_wwn) 3 0
  match r.2 with
  | some line => (r.1, Except.ok line)
  | none => (r.1, Except.error FcErr.lookupExhausted)

/-- The fibre-channel branch of `SolarisZonesDriver._suri_from_volume_info`
(driver.py lines 1069-1090): raise the "no host Fibre Channel initiator
found" invalid-volume error when the HBA list is empty; otherwise trigger
a remote-port rescan on every *online* port and run the LU lookup. -/
def suri_from_volume_info_fc (hbas : List Hba)
    (lookupOut : Nat → String → Except Unit String) (target_wwn : WwnSpec) :
    List FcEvt × Except FcErr String :=
  if hbas = [] then ([], Except.error FcErr.noInitiator)
  else
    let rescans := (get_fc_wwpns hbas).map FcEvt.rescan
    let r := lookup_fc_volume_suri lookupOut target_wwn
    (rescans ++ r.1, r.2)

/-- A concrete `fcinfo hba-port` output: one initiator port whose state is
offline.  The trailing NPIV attribute line (printed by fcinfo after "Node
WWN:") is the non-collecting line that flushes the completed record. -/
def fcinfoOfflineOut : String :=
  "HBA Port WWN: 21000024ff45afc2\n" ++
  "Port Mode: Initiator\n" ++
  "State: offline\n" ++
  "Node WWN: 20000024ff45afc2\n" ++
  "Max NPIV Ports: 126\n"

/-- Number of lookup attempts in a trace. -/
def countLookups (tr : List FcEvt) : Nat :=
  tr.countP (fun e => match e with | FcEvt.lookupAttempt _ => true | _ => false)

/-- Counterexample to claim C7 as stated: with one *offline* initiator
port (so no online initiator ports are present), the resolution does not
fail with the "no initiator found" error and does not perform zero lookup
attempts — the parsed HBA list is non-empty, so the code proceeds to
`_lookup_fc_volume_suri`, performs 3 lookup attempts, and fails with the
"unable to lookup URI" error instead. -/
theorem C7_counterexample :
    get_fc_wwpns (get_fc_hbas none (Except.ok fcinfoOfflineOut)) = [] ∧
    get_fc_hbas none (Except.ok fcinfoOfflineOut) ≠ [] ∧
    (suri_from_volume_info_fc (get_fc_hbas none (Except.ok fcinfoOfflineOut))
      (fun _ _ => Except.error ()) (WwnSpec.one "2100002437f5d7e1")).2 =
      Except.error FcErr.lookupExhausted ∧
    countLookups (suri_from_volume_info_fc (get_fc_hbas none (Except.ok fcinfoOfflineOut))
      (fun _ _ => Except.error ()) (WwnSpec.one "2100002437f5d7e1")).1 = 3 := by
  exact ⟨rfl, by decide, rfl, rfl⟩

/-- Claim C7 (amended): the immediate "no initiator found" failure with
zero lookup attempts happens exactly when the HBA port list is empty (no
fibre-channel HBA initiator ports were found at all); HBA ports that exist
but are offline do not trigger it (as `C7_counterexample` shows). -/
theorem C7_amended_no_hba_fails_immediately
    (lookupOut : Nat → String → Except Unit String) (target_wwn : WwnSpec) :
    suri_from_volume_info_fc [] lookupOut target_wwn =
      ([], Except.error FcErr.noInitiator) := rfl

/-! ## `finish_migration` and `_cleanup_finish_migration`

driver.py lines 3339-3443 and 3302-3337. -/

/-- Operations `finish_migration` issues, in order.  Events with a
`cleanup` name belong to `_cleanup_finish_migration`. -/
inductive FmEvt
  | mdSetOldVmState
  | setNumCpu
  | setMemCap
  | initVolConn
  | zoneDetach
  | setBootDevice
  | zoneReattach
  | volumeDetach (id : String)
  | volumeAttach (id : String) (mountpoint : String)
  | bdmSave
  | createConfig
  | zoneAttachInit
  | attachOtherVolume (mountdev : String)
  | powerOn
  | autoexpandToggle
  | cleanupVolumeDetach (id : String)
  | cleanupVolumeDelete (id : String)
  | cleanupInitConn
  | cleanupVolumeAttach (id : String) (mountpoint : String)
  | cleanupBdmSave
  | destroyDest
deriving Repr, DecidableEq

/-- How a `finish_migration` call ends. -/
inductive FmResult
  | ok
  | raisedOrig
  | raisedCleanup
deriving Repr, DecidableEq

/-- Inputs of `finish_migration` and the metadata it reads. -/
structure FmArgs where
  samehost : Bool
  brand : String
  disk_info : Option String
  root_serial : String
  old_rvid : Option String
  new_rvid_md : Option String
  root_device_name : String
  otherMounts : List String
  power_on : Bool
deriving Repr, DecidableEq

/-- Run a prefix of the `try`-body steps: with `failAfter = some k` (and
`k` within the body), `k` steps are executed and then an exception is
raised; otherwise the whole body runs. -/
def runBody (steps : List FmEvt) (failAfter : Option Nat) : List FmEvt × Bool :=
  match failAfter with
  | none => (steps, false)
  | some k => if k ≤ steps.length then (steps.take k, true) else (steps, false)

/-- `SolarisZonesDriver._resize_disk_migration` (driver.py lines
3468-3527): initialize the connection for the replacement volume; on the
same host, update the boot device (detaching and re-attaching non-kernel
zones around the update); then detach the configured volume, attach the
replacement at the root device, and update the block-device mapping. -/
def resizeDiskMigrationSteps (samehost : Bool) (brand : String)
    (configured replacement rootmp : String) : List FmEvt :=
  [FmEvt.initVolConn] ++
  (if samehost then
    (if brand = ZONE_BRAND_SOLARIS then [FmEvt.zoneDetach] else []) ++
    [FmEvt.setBootDevice] ++
    (if brand = ZONE_BRAND_SOLARIS then [FmEvt.zoneReattach] else [])
   else []) ++
  [FmEvt.volumeDetach configured, FmEvt.volumeAttach replacement rootmp, FmEvt.bdmSave]

/-- The `try` body of `finish_migration` (driver.py lines 3376-3437):
same-host resizes adjust the CPU and memory caps and swap the root volume
when the disk changed; cross-host migrations swap the root volume, create
the destination configuration, attach the zone with host-data
initialization and re-attach the non-root volumes; finally the zone is
powered on, with the rpool autoexpand toggle for kernel zones. -/
def fmBody (a : FmArgs) : List FmEvt :=
  (if a.samehost then
    [FmEvt.setNumCpu, FmEvt.setMemCap] ++
    (match a.disk_info with
     | some d => resizeDiskMigrationSteps true a.brand a.root_serial d a.root_device_name
     | none => [])
   else
    (match a.disk_info with
     | some d => resizeDiskMigrationSteps false a.brand a.root_serial d a.root_device_name
     | none => []) ++
    [FmEvt.createConfig, FmEvt.zoneAttachInit] ++
    a.otherMounts.map FmEvt.attachOtherVolume) ++
  (if a.power_on then
    [FmEvt.powerOn] ++ (if a.brand = ZONE_BRAND_SOLARIS then [] else [FmEvt.autoexpandToggle])
   else [])

/-- `SolarisZonesDriver._cleanup_finish_migration` (driver.py lines
3302-3337): when a new volume exists, detach and delete it; when the
original root volume id is recorded, re-initialize its connection, read
the new volume id from metadata (a missing key raises, flagged by the
returned Bool), re-attach the original volume at the root device and fix
the block-device mapping; for cross-host migrations, destroy the
partially-created destination instance. -/
def cleanup_finish_migration (a : FmArgs) : List FmEvt × Bool :=
  match a.disk_info with
  | none => ((if ¬ a.samehost then [FmEvt.destroyDest] else []), false)
  | some d =>
    let t0 := [FmEvt.cleanupVolumeDetach d, FmEvt.cleanupVolumeDelete d]
    match a.old_rvid with
    | none => (t0 ++ (if ¬ a.samehost then [FmEvt.destroyDest] else []), false)
    | some ov =>
      match a.new_rvid_md with
      | none => (t0 ++ [FmEvt.cleanupInitConn], true)
      | some _ =>
        (t0 ++ [FmEvt.cleanupInitConn, FmEvt.cleanupVolumeAttach ov a.root_device_name,
                FmEvt.cleanupBdmSave] ++
         (if ¬ a.samehost then [FmEvt.destroyDest] else []), false)

/-- `SolarisZonesDriver.finish_migration` (driver.py lines 3339-3443):
record the old VM state for same-host resizes, run the guarded body, and
on any failure run `_cleanup_finish_migration` before re-raising the
original error (a failure inside the cleanup itself propagates instead). -/
def finish_migration (a : FmArgs) (failAfter : Option Nat) : List FmEvt × FmResult :=
  let pre := if a.samehost then [FmEvt.mdSetOldVmState] else []
  let bf := runBody (fmBody a) failAfter
  if bf.2 then
    let cl := cleanup_finish_migration a
    (pre ++ bf.1 ++ cl.1, if cl.2 then FmResult.raisedCleanup else FmResult.raisedOrig)
  else (pre ++ bf.1, FmResult.ok)

/-- Claim C8: for every `finish_migration` call that fails after the new
volume was attached but before power-on completes, the cleanup path
detaches and deletes the newly-created volume, re-attaches the original
root volume at the root mount point, and — when the migration is
cross-host — destroys the partially-created destination instance, before
re-raising the original error to the caller. -/
theorem C8_finish_migration_cleanup (a : FmArgs) (k : Nat) (d ov nv : String)
    (hdisk : a.disk_info = some d)
    (hold : a.old_rvid = some ov)
    (hnew : a.new_rvid_md = some nv)
    (hfails : k ≤ (fmBody a).length)
    (_hafter : FmEvt.volumeAttach d a.root_device_name ∈ (fmBody a).take k)
    (_hbefore : FmEvt.powerOn ∉ (fmBody a).take k) :
    finish_migration a (some k) =
      ((if a.samehost then [FmEvt.mdSetOldVmState] else []) ++
       (fmBody a).take k ++
       ([FmEvt.cleanupVolumeDetach d, FmEvt.cleanupVolumeDelete d, FmEvt.cleanupInitConn,
         FmEvt.cleanupVolumeAttach ov a.root_device_name, FmEvt.cleanupBdmSave] ++
        (if ¬ a.samehost then [FmEvt.destroyDest] else [])),
       FmResult.raisedOrig) := by
  rw [finish_migration, runBody]
  rw [if_pos hfails]
  simp only [if_pos trivial]
  rw [cleanup_finish_migration, hdisk, hold, hnew]
  simp [List.append_assoc]

/-- Witness for C8: a concrete cross-host migration that fails right after
the root-volume attach; the new volume is detached and deleted, the
original re-attached, the destination instance destroyed, and the original
error re-raised. -/
theorem C8_finish_migration_cleanup_witness :
    finish_migration
      { samehost := false, brand := "solaris-kz", disk_info := some "vol-new",
        root_serial := "vol-old", old_rvid := some "vol-old",
        new_rvid_md := some "vol-new", root_device_name := "c1d0",
        otherMounts := [], power_on := true }
      (some 3) =
      ([FmEvt.initVolConn, FmEvt.volumeDetach "vol-old", FmEvt.volumeAttach "vol-new" "c1d0",
        FmEvt.cleanupVolumeDetach "vol-new", FmEvt.cleanupVolumeDelete "vol-new",
        FmEvt.cleanupInitConn, FmEvt.cleanupVolumeAttach "vol-old" "c1d0",
        FmEvt.cleanupBdmSave, FmEvt.destroyDest], FmResult.raisedOrig) := by
  have h := C8_finish_migration_cleanup
    { samehost := false, brand := "solaris-kz", disk_info := some "vol-new",
      root_serial := "vol-old", old_rvid := some "vol-old",
      new_rvid_md := some "vol-new", root_device_name := "c1d0",
      otherMounts := [], power_on := true }
    3 "vol-new" "vol-old" "vol-new" rfl rfl rfl (by decide) (by decide) (by decide)
  exact h.trans (by decide)

/-! ## `suspend`

driver.py lines 3617-3668. -/

/-- Operations `suspend` issues, in order. -/
inductive SuEvt
  | removeSuspendResource
  | setSuspendResource
  | zoneSuspend
  | unplugVifs
deriving Repr, DecidableEq

/-- Errors raised by `suspend`. -/
inductive SuErr
  | instanceNotFound
  | suspendFailure
deriving Repr, DecidableEq

/-- `os.path.join(CONF.solariszones.zones_suspend_path, '%{zonename}')`;
`%\x7bzonename\x7d` is the literal template token. -/
def zonenameToken : String :=
  "%" ++ String.singleton (Char.ofNat 123) ++ "zonename" ++ String.singleton (Char.ofNat 125)

/-- `os.path.join` for an absolute directory and a relative component. -/
def pathJoin (dir file : String) : String :=
  dir ++ "/" ++ file

/-- The backend state `suspend` observes: the zone lookup result, its
brand, whether it is running, the configured `suspend` resource (`none`
when absent, otherwise its optional `path` property), the configured
suspend-path directory, and the step at which the backend raises, if
any. -/
structure SuspendEnv where
  zone : Option Unit
  brand : String
  running : Bool
  suspendResource : Option (Option String)
  zones_suspend_path : String
  failAfter : Option Nat
deriving Repr, DecidableEq

/-- Run a prefix of the suspend steps (same failure model as `runBody`). -/
def runSuSteps (steps : List SuEvt) (failAfter : Option Nat) : List SuEvt × Bool :=
  match failAfter with
  | none => (steps, false)
  | some k => if k ≤ steps.length then (steps.take k, true) else (steps, false)

/-- `SolarisZonesDriver.suspend` (driver.py lines 3617-3668): resolve the
zone (absence is `InstanceNotFound`); only kernel zones support suspend;
the zone must be running; then ensure the `suspend` resource is configured
with the current suspend path (adding it when absent, replacing it when
its path is stale), issue the suspend, and unplug the virtual interfaces;
any failure inside the `try` surfaces as `InstanceSuspendFailure`. -/
def suspend (env : SuspendEnv) : List SuEvt × Option SuErr :=
  match env.zone with
  | none => ([], some SuErr.instanceNotFound)
  | some _ =>
    if env.brand ≠ ZONE_BRAND_SOLARIS_KZ then ([], some SuErr.suspendFailure)
    else if ¬ env.running then ([], some SuErr.suspendFailure)
    else
      let new_path := pathJoin env.zones_suspend_path zonenameToken
      let ensure :=
        match env.suspendResource with
        | none => [SuEvt.setSuspendResource]
        | some pathProp =>
          if pathProp ≠ some new_path then
            [SuEvt.removeSuspendResource, SuEvt.setSuspendResource]
          else []
      let steps := ensure ++ [SuEvt.zoneSuspend, SuEvt.unplugVifs]
      let r := runSuSteps steps env.failAfter
      (r.1, if r.2 then some SuErr.suspendFailure else none)

/-- A concrete suspend environment: a running kernel zone with no
`suspend` resource configured and a backend that does not fail. -/
def suspendEnv0 : SuspendEnv :=
  { zone := some (), brand := "solaris-kz", running := true,
    suspendResource := none, zones_suspend_path := "/var/share/zones",
    failAfter := none }

/-- Counterexample to claim C9 as stated: in a successful suspend of a
running kernel zone, both the suspend and the interface unplug are issued,
but the virtual interfaces are unplugged *after* the suspend operation was
issued to the zone backend, not before: `zoneSuspend` occurs at index 1 of
the trace and `unplugVifs` at index 2. -/
theorem C9_counterexample :
    suspend suspendEnv0 =
      ([SuEvt.setSuspendResource, SuEvt.zoneSuspend, SuEvt.unplugVifs], none) ∧
    ¬ (List.indexOf SuEvt.unplugVifs (suspend suspendEnv0).1 <
        List.indexOf SuEvt.zoneSuspend (suspend suspendEnv0).1) := by
  exact ⟨rfl, by decide⟩

/-- Claim C9 (amended): for every suspend call on a running kernel-zone
instance, after the suspend-path resource is ensured to be configured, the
suspend operation is issued to the zone backend and the instance's virtual
interfaces are unplugged immediately *after* it (the trace ends with
`zoneSuspend` followed by `unplugVifs`). -/
theorem C9_amended_unplug_after_suspend (env : SuspendEnv)
    (hzone : env.zone = some ())
    (hbrand : env.brand = ZONE_BRAND_SOLARIS_KZ)
    (hrun : env.running = true)
    (hok : env.failAfter = none) :
    ∃ t, (suspend env).1 = t ++ [SuEvt.zoneSuspend, SuEvt.unplugVifs] ∧
      (suspend env).2 = none := by
  rw [suspend, hzone]
  simp only [hbrand, hrun, hok, runSuSteps, ne_eq, not_true_eq_false, if_false,
    Bool.not_true, ite_false, ite_true]
  exact ⟨_, rfl, rfl⟩

/-- Witness for the amended C9: in the concrete environment the trace ends
with the suspend followed by the unplug. -/
theorem C9_amended_unplug_after_suspend_witness :
    ∃ t, (suspend suspendEnv0).1 = t ++ [SuEvt.zoneSuspend, SuEvt.unplugVifs] ∧
      (suspend suspendEnv0).2 = none :=
  C9_amended_unplug_after_suspend suspendEnv0 rfl rfl rfl rfl

end NovaSolaris
